import Mathlib

/-!
Verification of `domain_checker.py`: a shallow embedding of the website
prober (`check_website`), the classifier call state machine (`call_gemini`),
the credential cycle (`key_cycle`), and the row-processing orchestrator
(main loop), together with theorems settling the frozen claims about them.

External effects (HTTP responses, the generative service, the HTML parser
from the `bs4` library) are supplied as environment parameters; everything
the Python file itself computes is translated directly.
-/

namespace DomainChecker

/-- Python's substring test `needle in hay`. -/
def strContains (hay needle : String) : Bool :=
  let h := hay.toList
  let n := needle.toList
  (List.range (h.length + 1)).any (fun i => (h.drop i).take n.length == n)

/-- Python's default `str.strip()` whitespace set (ASCII part). -/
def isPySpace (c : Char) : Bool :=
  c == ' ' || c == '\t' || c == '\n' || c == '\r' || c == '\x0b' || c == '\x0c'

/-- Python's `str.strip()`. -/
def pyStrip (s : String) : String :=
  String.mk (((s.toList.dropWhile isPySpace).reverse.dropWhile isPySpace).reverse)

/-- Python's `str.lower()` (ASCII range, all that error messages use). -/
def pyLower (s : String) : String :=
  String.mk (s.toList.map Char.toLower)

/-- Python's `str.startswith(pre)`. -/
def pyStartsWith (s pre : String) : Bool :=
  s.toList.take pre.toList.length == pre.toList

/-- Worker for `pySplit`: Python's `str.split(sep)` over character lists,
with explicit fuel (any fuel above the input length is enough, since each
step consumes at least one character of a non-empty separator match or one
plain character). -/
def pySplitAux (sep : List Char) : Nat → List Char → List Char → List (List Char)
  | 0, acc, l => [acc.reverse ++ l]
  | fuel + 1, acc, l =>
    match l with
    | [] => [acc.reverse]
    | c :: rest =>
      if l.take sep.length == sep then
        acc.reverse :: pySplitAux sep fuel [] (l.drop sep.length)
      else
        pySplitAux sep fuel (c :: acc) rest

/-- Python's `str.split(sep)` for a non-empty separator. -/
def pySplit (s sep : String) : List String :=
  (pySplitAux sep.toList (s.toList.length + 1) [] s.toList).map String.mk

/-- Digit-sequence value accumulator for `pyParseInt`. -/
def digitsVal : List Char → Nat → Option Nat
  | [], acc => some acc
  | c :: cs, acc =>
    if '0' ≤ c ∧ c ≤ '9' then digitsVal cs (acc * 10 + (c.toNat - '0'.toNat))
    else none

/-- Sign-and-digits parsing for `pyParseInt`. -/
def pyIntOfChars : List Char → Option Int
  | [] => none
  | '-' :: rest =>
    if rest = [] then none else (digitsVal rest 0).map (fun n => -(n : Int))
  | '+' :: rest =>
    if rest = [] then none else (digitsVal rest 0).map (fun n => (n : Int))
  | l => (digitsVal l 0).map (fun n => (n : Int))

/-- Python's `int(s)` on a string: strip whitespace, optional sign, decimal
digits; anything else raises (`none`). -/
def pyParseInt (s : String) : Option Int :=
  pyIntOfChars (pyStrip s).toList

/-! ## Website prober: `check_website` (lines 76-109) -/

/-- Result of `check_website`: `(status, reason, text_snippet)`. -/
structure ProbeRes where
  status : String
  reason : String
  sample : String
deriving DecidableEq, Repr

/-- Outcome of one `requests.get(url, ...)` call: either an HTTP response
(with status code, `Content-Type` header value, and body text) or one of the
exception classes caught at lines 99-106. -/
inductive HttpOutcome where
  | resp (statusCode : Nat) (contentType : String) (body : String)
  | timeout
  | sslError
  | connError
  | reqExc (msg : String)
deriving DecidableEq

/-- Whether the outcome is a transport-level exception (any of the four
`except` arms) rather than an HTTP response. -/
def isTransportExc : HttpOutcome → Bool
  | .resp _ _ _ => false
  | _ => true

/-- The `reason` string each `except` arm assigns (lines 99-106); responses
never reach those arms, so the value there is irrelevant. -/
def excReason : HttpOutcome → String
  | .resp _ _ _ => ""
  | .timeout => "Timeout"
  | .sslError => "SSL Error"
  | .connError => "Connection Error"
  | .reqExc m => m

/-- `urls_to_try` (lines 83-88), in order. -/
def urlsToTry (domain : String) : List String :=
  ["https://" ++ domain,
   "http://" ++ domain,
   "https://www." ++ domain,
   "http://www." ++ domain]

/-- The `for url in urls_to_try` loop (lines 92-109).  `ch` models the
`clean_html` helper (an external HTML parser); `r` is the `reason` variable,
`none` while no except arm has assigned it yet.  On the 4-element list the
fall-through always has `r = some _`, matching Python where `reason` is bound
by the time line 109 runs. -/
def websiteLoop (http : String → HttpOutcome) (ch : String → String) :
    List String → Option String → ProbeRes
  | [], r => ⟨"unreachable", r.getD "", ""⟩
  | url :: rest, _r =>
    match http url with
    | .resp code ctype body =>
      if code < 400 && strContains ctype "text/html" then
        ⟨"reachable", toString code, String.mk ((ch body).toList.take 4000)⟩
      else
        ⟨"unreachable", toString code, ""⟩
    | .timeout => websiteLoop http ch rest (some "Timeout")
    | .sslError => websiteLoop http ch rest (some "SSL Error")
    | .connError => websiteLoop http ch rest (some "Connection Error")
    | .reqExc m => websiteLoop http ch rest (some m)

/-- `check_website(domain)` (lines 76-109). -/
def checkWebsite (http : String → HttpOutcome) (ch : String → String)
    (domain : String) : ProbeRes :=
  websiteLoop http ch (urlsToTry domain) none

/-! ## Classifier call: `call_gemini` (lines 112-154) -/

/-- Outcome of one `model.generate_content(prompt)` interaction: either the
call (or the `.text` accessor) raised, with `str(e) = msg`, or it produced
the text `response.text or ""`. -/
inductive ServiceResp where
  | raise (msg : String)
  | text (t : String)

/-- Drop characters until the first one satisfying the given character,
keeping it: used to locate the first brace of the regex match. -/
def dropUntilChar (c : Char) : List Char → List Char
  | [] => []
  | x :: xs => if x = c then x :: xs else dropUntilChar c xs

/-- `re.search(r'\x7b.*\x7d', text, re.DOTALL)` (line 130): the leftmost,
greedy match runs from the first opening brace to the last closing brace of
the text, provided the closing brace comes strictly later. -/
def extractJson (t : String) : Option String :=
  let a := dropUntilChar '{' t.toList
  let b := (dropUntilChar '}' a.reverse).reverse
  if b.isEmpty then none else some (String.mk b)

/-- Markdown code-fence stripping (lines 123-128). -/
def stripFences (t : String) : String :=
  if pyStartsWith t "```" then
    let parts := pySplit t "```"
    if 2 ≤ parts.length then pyStrip (parts.getD 1 "")
    else pyStrip ((t.replace "```json" "").replace "```" "")
  else t

/-- Result of the `try` body of one attempt (lines 115-134): either the
brace-delimited substring returned at line 132, or the `str(e)` of the
exception reaching `except Exception as e`. -/
inductive AttemptRes where
  | ok (s : String)
  | err (msg : String)

/-- One attempt of `call_gemini`'s loop body (lines 115-134). -/
def attemptOutcome : ServiceResp → AttemptRes
  | .raise m => .err m
  | .text t0 =>
    let t := pyStrip t0
    if t = "" then .err "Empty response from Gemini."
    else
      let t2 := stripFences t
      match extractJson t2 with
      | some s => .ok s
      | none => .err ("Could not extract JSON from response: " ++ t2)

/-- The four arms of the `except` block's error classification
(lines 136-153). -/
inductive ErrClass where
  | quota
  | disabled
  | empty
  | fatal
deriving DecidableEq

/-- String matching on `err = str(e)` (lines 138, 144, 149). -/
def classifyErr (err : String) : ErrClass :=
  if strContains err "429" || strContains (pyLower err) "quota" then .quota
  else if strContains err "403" || strContains err "SERVICE_DISABLED" then .disabled
  else if strContains err "Empty response" then .empty
  else .fatal

/-- Overall result of `call_gemini`: the extracted JSON substring, the
`RuntimeError` raised at line 153, or the `RuntimeError` raised at line 154
when the loop ends. -/
inductive GemResult where
  | ok (s : String)
  | fatalError (msg : String)
  | allRetriesFailed
deriving DecidableEq

/-- `for attempt in range(retries)` (lines 114-153), with `fuel` the number
of attempts left, `attempt` the index into the environment of service
responses, and `rot` the number of `next(key_cycle)` rotations performed so
far during this call (the quota and disabled arms each rotate once; the
empty-response arm does not). -/
def callGeminiLoop (env : Nat → ServiceResp) :
    Nat → Nat → Nat → GemResult × Nat
  | 0, _, rot => (.allRetriesFailed, rot)
  | fuel + 1, attempt, rot =>
    match attemptOutcome (env attempt) with
    | .ok s => (.ok s, rot)
    | .err e =>
      match classifyErr e with
      | .quota => callGeminiLoop env fuel (attempt + 1) (rot + 1)
      | .disabled => callGeminiLoop env fuel (attempt + 1) (rot + 1)
      | .empty => callGeminiLoop env fuel (attempt + 1) rot
      | .fatal => (.fatalError ("Gemini API error: " ++ e), rot)

/-- `call_gemini(prompt, retries=3)`: the value returned or exception raised. -/
def callGemini (env : Nat → ServiceResp) : GemResult :=
  (callGeminiLoop env 3 0 0).1

/-- Number of credential rotations performed during one `call_gemini` call. -/
def callGeminiRot (env : Nat → ServiceResp) : Nat :=
  (callGeminiLoop env 3 0 0).2

/-! ## Credential pool: `key_cycle = itertools.cycle(api_keys)` (line 26) -/

/-- The value produced by the `n`-th call of `next(key_cycle)` (0-based):
`itertools.cycle` yields the list elements cyclically.  The startup code
(line 31) consumes call 0, so the active credential after `n` rotations is
`keyAt keys n`. -/
def keyAt (keys : List String) (n : Nat) : String :=
  keys.getD (n % keys.length) ""

/-! ## Data model and normalization (lines 39-62) -/

/-- One raw dataset row as read from the CSV: each cell is `some s` when a
string value is present and `none` when the cell is missing (`NaN`). -/
structure RawRow where
  domain : Option String
  category : Option String
  company_size : Option String
  email_provider : Option String
  confidence : Option String
  other_industry_category : Option String
  website : Option String
  website_status : Option String
  website_reason : Option String
deriving DecidableEq, Repr

/-- A row after the dtype normalization of lines 54-62: text columns hold
strings (the `domain` column is untouched by that block and keeps its raw
cell), `confidence` holds an integer. -/
structure Row where
  domain : Option String
  category : String
  company_size : String
  email_provider : String
  confidence : Int
  other_industry_category : String
  website : String
  website_status : String
  website_reason : String
deriving DecidableEq, Repr

/-- `df[col].astype(str)` on one cell: pandas renders a missing value as the
string `"nan"`. -/
def normalizeText : Option String → String
  | none => "nan"
  | some s => s

/-- `pd.to_numeric(df[col], errors='coerce').fillna(0).astype(int)` on one
cell, for integer-literal cells: values that do not parse as a number
coerce to `NaN` and are filled with 0. -/
def normalizeConf : Option String → Int
  | none => 0
  | some s => (pyParseInt s).getD 0

/-- The column normalization of lines 54-62 applied to one row. -/
def normalizeRow (r : RawRow) : Row where
  domain := r.domain
  category := normalizeText r.category
  company_size := normalizeText r.company_size
  email_provider := normalizeText r.email_provider
  confidence := normalizeConf r.confidence
  other_industry_category := normalizeText r.other_industry_category
  website := normalizeText r.website
  website_status := normalizeText r.website_status
  website_reason := normalizeText r.website_reason

/-! ## Row selection (lines 162-169) -/

/-- Line 164: `category_value not in ["", "Unknown", "nan", "NaN"]` skips the
row, where `category_value = str(row.get('category', '')).strip()`. -/
def categoryNeedsProcessing (r : Row) : Bool :=
  let cv := pyStrip r.category
  cv == "" || cv == "Unknown" || cv == "nan" || cv == "NaN"

/-- Lines 167-169: `if not domain or pd.isna(domain): continue` — the row is
kept only when the `domain` cell is present, non-missing, and (because the
empty string is falsy in Python) non-empty. -/
def domainOk (r : Row) : Bool :=
  match r.domain with
  | none => false
  | some s => !(s == "")

/-- A row is processed exactly when both guards pass. -/
def rowSelected (r : Row) : Bool :=
  categoryNeedsProcessing r && domainOk r

/-- Modelled from the spec wording of the skip predicate, for comparison
with `rowSelected`: category empty/"Unknown"/"nan"/"NaN" (stripped) and
`domain` "present and non-missing" — with no requirement that it be
non-empty. -/
def specSelected (r : Row) : Bool :=
  categoryNeedsProcessing r && r.domain.isSome

/-! ## Merge step (lines 264-297) -/

/-- A JSON value stored under the `confidence` key: an integer, a string, or
anything else (`null`, list, object, ...) on which Python's `int()` raises. -/
inductive JVal where
  | jint (n : Int)
  | jstr (s : String)
  | jother
deriving DecidableEq

/-- `int(v)` for a JSON value: identity on integers, integer-literal parsing
on strings, and failure (a raised `ValueError`/`TypeError`) otherwise. -/
def pyInt : JVal → Option Int
  | .jint n => some n
  | .jstr s => pyParseInt s
  | .jother => none

/-- The decoded JSON object `js` as the merge step reads it: each field is
`some v` when the key is present with a string value (`some (.jint n)` etc.
for `confidence`) and `none` when `js.get` falls back to its default. -/
structure JsObj where
  category : Option String
  company_size : Option String
  email_provider : Option String
  confidence : Option JVal
  other_industry_category : Option String
  website : Option String
deriving DecidableEq

/-- `js = \x7b\x7d`: every `js.get` falls back to its default. -/
def emptyJs : JsObj :=
  ⟨none, none, none, none, none, none⟩

/-- Summary of the classifier interaction for one row: `call_gemini`
returned and `json.loads` succeeded with `js`; `call_gemini` returned but
`json.loads` raised (line 269: `js = \x7b\x7d`); or `call_gemini` raised. -/
inductive ClassifyOutcome where
  | ok (js : JsObj)
  | badJson
  | geminiError
deriving DecidableEq

/-- The `except Exception` branch of the row loop (lines 288-297). -/
def errorMerge (r : Row) (p : ProbeRes) : Row :=
  { r with
    category := "Unknown"
    company_size := "Unknown"
    email_provider := "Unknown"
    confidence := 0
    other_industry_category := "N/A"
    website := "Unknown"
    website_status := p.status
    website_reason := p.reason }

/-- The successful merge of lines 279-286 for a decoded object `js`.  If
`int(js.get('confidence', 0))` raises (line 282), control transfers to the
`except` branch, whose assignments overwrite the fields already written. -/
def mergeJs (r : Row) (p : ProbeRes) (js : JsObj) : Row :=
  match pyInt (js.confidence.getD (.jint 0)) with
  | some n =>
    { r with
      category := js.category.getD "Unknown"
      company_size := js.company_size.getD "Unknown"
      email_provider := js.email_provider.getD "Unknown"
      confidence := n
      other_industry_category := js.other_industry_category.getD "N/A"
      website := js.website.getD "Unknown"
      website_status := p.status
      website_reason := p.reason }
  | none => errorMerge r p

/-- Lines 264-297: the whole try/except around the classifier call and the
assignments into the dataframe, for a selected row. -/
def processRowBody (r : Row) (p : ProbeRes) : ClassifyOutcome → Row
  | .ok js => mergeJs r p js
  | .badJson => mergeJs r p emptyJs
  | .geminiError => errorMerge r p

/-! ## Main loop (lines 160-302) -/

/-- Environment for one row: the HTTP layer and HTML cleaner consumed by
`check_website`, and the summarized classifier interaction. -/
structure RowEnv where
  http : String → HttpOutcome
  cleanHtml : String → String
  classify : ClassifyOutcome

/-- The body of one selected iteration: probe the domain (line 174), then
classify and merge (lines 264-297). -/
def enrichRow (e : RowEnv) (r : Row) : Row :=
  let p := checkWebsite e.http e.cleanHtml (r.domain.getD "")
  processRowBody r p e.classify

/-- One iteration of `for idx, row in df.iterrows()`: a row failing either
guard is skipped unchanged. -/
def stepRow (e : RowEnv) (r : Row) : Row :=
  if rowSelected r then enrichRow e r else r

/-- Dataset contents after the loop has visited the first `k` rows — each
visited row is replaced by `stepRow` of its original value (the `row` handed
out by `iterrows` for index `k` is unmutated, since the loop only writes
into the current and earlier rows).  `runUpTo env df k` is exactly what
`df.to_csv(save_path)` persists at the checkpoint (line 299) after the
`k`-th visited row, processed or skipped. -/
def runUpTo (env : Nat → RowEnv) (df : List Row) : Nat → List Row
  | 0 => df
  | k + 1 =>
    match df[k]? with
    | some r => (runUpTo env df k).set k (stepRow (env k) r)
    | none => runUpTo env df k

/-! ## Concrete fixtures used to instantiate the theorems -/

/-- A row environment in which every HTTP request fails and the classifier
call raises. -/
def envGemErr : RowEnv :=
  ⟨fun _ => HttpOutcome.connError, fun s => s, ClassifyOutcome.geminiError⟩

/-- A row environment whose classifier response carries confidence −5. -/
def envConfNeg : RowEnv :=
  ⟨fun _ => HttpOutcome.connError, fun s => s,
   ClassifyOutcome.ok ⟨none, none, none, some (.jint (-5)), none, none⟩⟩

/-- A normalized row with empty category and a usable domain: selected. -/
def rowBlank : Row :=
  ⟨some "a.com", "", "", "", 0, "", "", "", ""⟩

/-- A normalized row already carrying a meaningful category: skipped. -/
def rowDone : Row :=
  ⟨some "b.com", "Tech", "", "", 0, "", "", "", ""⟩

/-- A raw input row with a meaningful category but a non-numeric confidence
cell `"abc"`. -/
def rawRowA : RawRow :=
  ⟨some "example.com", some "Tech", none, none, some "abc", none, none, none, none⟩

/-- A raw input row with empty category and a present but empty domain
cell. -/
def rawRowB : RawRow :=
  ⟨some "", some "", none, none, none, none, none, none, none⟩

/-! ## Theorems: website prober -/

theorem websiteLoop_step_exc (http : String → HttpOutcome) (ch : String → String)
    (u : String) (rest : List String) (r : Option String)
    (h : isTransportExc (http u) = true) :
    websiteLoop http ch (u :: rest) r =
      websiteLoop http ch rest (some (excReason (http u))) := by
  cases ho : http u <;>
    simp [websiteLoop, isTransportExc, excReason, ho] at h ⊢

theorem websiteLoop_step_resp (http : String → HttpOutcome) (ch : String → String)
    (u : String) (rest : List String) (r : Option String)
    (code : Nat) (ctype body : String) (h : http u = .resp code ctype body)
    (hbad : ¬ (code < 400 ∧ strContains ctype "text/html" = true)) :
    websiteLoop http ch (u :: rest) r = ⟨"unreachable", toString code, ""⟩ := by
  simp only [websiteLoop, h]
  rw [if_neg]
  simp only [Bool.and_eq_true, decide_eq_true_eq]
  exact hbad

theorem checkWebsite_bad_resp (http : String → HttpOutcome) (ch : String → String)
    (domain : String) (i : Nat) (code : Nat) (ctype body : String)
    (hi : i < 4)
    (hexc : ∀ j, j < i → isTransportExc (http ((urlsToTry domain).getD j "")) = true)
    (hresp : http ((urlsToTry domain).getD i "") = .resp code ctype body)
    (hbad : 400 ≤ code ∨ strContains ctype "text/html" = false) :
    checkWebsite http ch domain = ⟨"unreachable", toString code, ""⟩ := by
  have hbad' : ¬ (code < 400 ∧ strContains ctype "text/html" = true) := by
    rcases hbad with h | h
    · exact fun hc => absurd hc.1 (by omega)
    · exact fun hc => by rw [h] at hc; exact absurd hc.2 (by simp)
  unfold checkWebsite urlsToTry
  interval_cases i
  · have hr : http ("https://" ++ domain) = .resp code ctype body := hresp
    exact websiteLoop_step_resp _ _ _ _ _ _ _ _ hr hbad'
  · have h0 : isTransportExc (http ("https://" ++ domain)) = true := hexc 0 (by omega)
    have hr : http ("http://" ++ domain) = .resp code ctype body := hresp
    rw [websiteLoop_step_exc _ _ _ _ _ h0]
    exact websiteLoop_step_resp _ _ _ _ _ _ _ _ hr hbad'
  · have h0 : isTransportExc (http ("https://" ++ domain)) = true := hexc 0 (by omega)
    have h1 : isTransportExc (http ("http://" ++ domain)) = true := hexc 1 (by omega)
    have hr : http ("https://www." ++ domain) = .resp code ctype body := hresp
    rw [websiteLoop_step_exc _ _ _ _ _ h0, websiteLoop_step_exc _ _ _ _ _ h1]
    exact websiteLoop_step_resp _ _ _ _ _ _ _ _ hr hbad'
  · have h0 : isTransportExc (http ("https://" ++ domain)) = true := hexc 0 (by omega)
    have h1 : isTransportExc (http ("http://" ++ domain)) = true := hexc 1 (by omega)
    have h2 : isTransportExc (http ("https://www." ++ domain)) = true := hexc 2 (by omega)
    have hr : http ("http://www." ++ domain) = .resp code ctype body := hresp
    rw [websiteLoop_step_exc _ _ _ _ _ h0, websiteLoop_step_exc _ _ _ _ _ h1,
        websiteLoop_step_exc _ _ _ _ _ h2]
    exact websiteLoop_step_resp _ _ _ _ _ _ _ _ hr hbad'

/-- Claim C7: the first candidate URL (in the fixed order
`https://d`, `http://d`, `https://www.d`, `http://www.d`) whose request
yields an HTTP response with status code >= 400 or a non-HTML content type
makes `check_website` return `("unreachable", str(status_code), "")`
immediately; the result does not depend on the HTTP behaviour of any later
candidate. -/
theorem c7_bad_response_short_circuits (http : String → HttpOutcome)
    (ch : String → String) (domain : String) (i : Nat) (code : Nat)
    (ctype body : String) (hi : i < 4)
    (hexc : ∀ j, j < i → isTransportExc (http ((urlsToTry domain).getD j "")) = true)
    (hresp : http ((urlsToTry domain).getD i "") = .resp code ctype body)
    (hbad : 400 ≤ code ∨ strContains ctype "text/html" = false) :
    checkWebsite http ch domain = ⟨"unreachable", toString code, ""⟩ ∧
    ∀ http' : String → HttpOutcome,
      (∀ j, j ≤ i → http' ((urlsToTry domain).getD j "") = http ((urlsToTry domain).getD j "")) →
      checkWebsite http' ch domain = ⟨"unreachable", toString code, ""⟩ := by
  refine ⟨checkWebsite_bad_resp http ch domain i code ctype body hi hexc hresp hbad, ?_⟩
  intro http' hagree
  apply checkWebsite_bad_resp http' ch domain i code ctype body hi
  · intro j hj
    rw [hagree j (by omega)]
    exact hexc j hj
  · rw [hagree i (by omega)]
    exact hresp
  · exact hbad

theorem c7_witness :
    checkWebsite
      (fun u => if u = "https://x.com" then HttpOutcome.timeout
                else HttpOutcome.resp 404 "text/html" "gone")
      (fun s => s) "x.com" = ⟨"unreachable", "404", ""⟩ :=
  (c7_bad_response_short_circuits
    (fun u => if u = "https://x.com" then HttpOutcome.timeout
              else HttpOutcome.resp 404 "text/html" "gone")
    (fun s => s) "x.com" 1 404 "text/html" "gone"
    (by omega)
    (by intro j hj
        interval_cases j
        decide)
    (by decide)
    (by left; omega)).1

/-- Claim C8: when all four candidate URLs raise transport-level exceptions,
`check_website` returns `("unreachable", r, "")` where `r` is the reason
recorded for the last (fourth) candidate. -/
theorem c8_all_fail_last_reason (http : String → HttpOutcome)
    (ch : String → String) (domain : String)
    (hexc : ∀ j, j < 4 → isTransportExc (http ((urlsToTry domain).getD j "")) = true) :
    checkWebsite http ch domain =
      ⟨"unreachable", excReason (http ((urlsToTry domain).getD 3 "")), ""⟩ := by
  have h0 : isTransportExc (http ("https://" ++ domain)) = true := hexc 0 (by omega)
  have h1 : isTransportExc (http ("http://" ++ domain)) = true := hexc 1 (by omega)
  have h2 : isTransportExc (http ("https://www." ++ domain)) = true := hexc 2 (by omega)
  have h3 : isTransportExc (http ("http://www." ++ domain)) = true := hexc 3 (by omega)
  unfold checkWebsite urlsToTry
  rw [websiteLoop_step_exc _ _ _ _ _ h0, websiteLoop_step_exc _ _ _ _ _ h1,
      websiteLoop_step_exc _ _ _ _ _ h2, websiteLoop_step_exc _ _ _ _ _ h3]
  rfl

theorem c8_witness :
    checkWebsite
      (fun u => if u = "http://www.deadlink.invalid" then HttpOutcome.reqExc "too many redirects"
                else HttpOutcome.connError)
      (fun s => s) "deadlink.invalid" = ⟨"unreachable", "too many redirects", ""⟩ := by
  have h := c8_all_fail_last_reason
    (fun u => if u = "http://www.deadlink.invalid" then HttpOutcome.reqExc "too many redirects"
              else HttpOutcome.connError)
    (fun s => s) "deadlink.invalid"
    (by intro j hj
        interval_cases j <;> decide)
  rw [h]
  decide

/-! ## Theorems: classifier call -/

theorem dropUntilChar_head (c : Char) :
    ∀ l : List Char, dropUntilChar c l = [] ∨ (dropUntilChar c l).head? = some c := by
  intro l
  induction l with
  | nil => exact Or.inl rfl
  | cons x xs ih =>
    by_cases h : x = c
    · right
      simp [dropUntilChar, h]
    · simpa [dropUntilChar, h] using ih

theorem dropUntilChar_drops (c : Char) :
    ∀ l : List Char, ∃ p, p ++ dropUntilChar c l = l := by
  intro l
  induction l with
  | nil => exact ⟨[], rfl⟩
  | cons x xs ih =>
    by_cases h : x = c
    · exact ⟨[], by simp [dropUntilChar, h]⟩
    · obtain ⟨p, hp⟩ := ih
      exact ⟨x :: p, by simp [dropUntilChar, h, hp]⟩

theorem extractBody_braces (cs : List Char)
    (hne : (dropUntilChar '}' (dropUntilChar '{' cs).reverse).reverse ≠ []) :
    (dropUntilChar '}' (dropUntilChar '{' cs).reverse).reverse.head? = some '{' ∧
    (dropUntilChar '}' (dropUntilChar '{' cs).reverse).reverse.getLast? = some '}' := by
  set a := dropUntilChar '{' cs with ha
  set x := dropUntilChar '}' a.reverse with hx
  have hxne : x ≠ [] := by
    intro hxnil
    rw [hxnil] at hne
    exact hne rfl
  constructor
  · obtain ⟨p, hp⟩ := dropUntilChar_drops '}' a.reverse
    have hasplit : a = x.reverse ++ p.reverse := by
      have h2 := congrArg List.reverse hp
      rw [List.reverse_append, List.reverse_reverse] at h2
      rw [← hx] at h2
      exact h2.symm
    have hahead : a.head? = some '{' := by
      rcases dropUntilChar_head '{' cs with h' | h'
      · rw [← ha] at h'
        rw [h'] at hasplit
        rcases List.append_eq_nil.mp hasplit.symm with ⟨h1, _⟩
        exact absurd h1 hne
      · rw [← ha] at h'
        exact h'
    rw [hasplit, List.head?_append_of_ne_nil _ hne] at hahead
    exact hahead
  · rw [List.getLast?_reverse]
    rcases dropUntilChar_head '}' a.reverse with h' | h'
    · exact absurd h' hxne
    · exact h'

theorem extractJson_braces (t s : String) (h : extractJson t = some s) :
    s.toList.head? = some '{' ∧ s.toList.getLast? = some '}' := by
  simp only [extractJson] at h
  split at h
  · exact absurd h (by simp)
  · next hc =>
    have hs : String.mk ((dropUntilChar '}' (dropUntilChar '{' t.toList).reverse).reverse) = s :=
      Option.some.inj h
    have hne : (dropUntilChar '}' (dropUntilChar '{' t.toList).reverse).reverse ≠ [] := by
      intro hnil
      exact hc (by rw [hnil]; rfl)
    have hbody := extractBody_braces t.toList hne
    rw [← hs]
    exact hbody

theorem attemptOutcome_ok (r : ServiceResp) (s : String)
    (h : attemptOutcome r = .ok s) : ∃ t, extractJson t = some s := by
  cases r with
  | raise m => simp [attemptOutcome] at h
  | text t0 =>
    unfold attemptOutcome at h
    by_cases he : pyStrip t0 = ""
    · simp [he] at h
    · simp only [he, if_false] at h
      cases hx : extractJson (stripFences (pyStrip t0)) with
      | none => rw [hx] at h; simp at h
      | some s' =>
        rw [hx] at h
        simp only [AttemptRes.ok.injEq] at h
        exact ⟨stripFences (pyStrip t0), by rw [hx, h]⟩

theorem callGeminiLoop_ok (env : Nat → ServiceResp) :
    ∀ fuel attempt rot s, (callGeminiLoop env fuel attempt rot).1 = .ok s →
      ∃ t, extractJson t = some s := by
  intro fuel
  induction fuel with
  | zero =>
    intro attempt rot s h
    have hz : callGeminiLoop env 0 attempt rot = (.allRetriesFailed, rot) := rfl
    rw [hz] at h
    exact absurd h (by simp)
  | succ n ih =>
    intro attempt rot s h
    unfold callGeminiLoop at h
    cases hao : attemptOutcome (env attempt) with
    | ok s' =>
      simp only [hao] at h
      have hs : s' = s := by simpa using h
      subst hs
      exact attemptOutcome_ok (env attempt) s' hao
    | err e =>
      simp only [hao] at h
      cases hc : classifyErr e <;> simp only [hc] at h
      · exact ih (attempt + 1) (rot + 1) s h
      · exact ih (attempt + 1) (rot + 1) s h
      · exact ih (attempt + 1) rot s h
      · exact absurd h (by simp)

/-- Claim C10: whenever `call_gemini` returns normally, the returned string
begins with the character `{` and ends with the character `}` — it is the
greedy regex match of a brace-delimited region, so `json.loads` always
receives a brace-delimited candidate. -/
theorem c10_result_brace_delimited (env : Nat → ServiceResp) (s : String)
    (h : callGemini env = .ok s) :
    s.toList.head? = some '{' ∧ s.toList.getLast? = some '}' := by
  obtain ⟨t, ht⟩ := callGeminiLoop_ok env 3 0 0 s h
  exact extractJson_braces t s ht

theorem c10_witness :
    "\x7b\"x\":1\x7d".toList.head? = some '{' ∧
    "\x7b\"x\":1\x7d".toList.getLast? = some '}' :=
  c10_result_brace_delimited
    (fun _ => ServiceResp.text "ab\x7b\"x\":1\x7dcd") "\x7b\"x\":1\x7d" (by decide)

theorem callGeminiLoop_succ (env : Nat → ServiceResp) (fuel attempt rot : Nat) :
    callGeminiLoop env (fuel + 1) attempt rot =
      (match attemptOutcome (env attempt) with
       | .ok s => (GemResult.ok s, rot)
       | .err e =>
         match classifyErr e with
         | .quota => callGeminiLoop env fuel (attempt + 1) (rot + 1)
         | .disabled => callGeminiLoop env fuel (attempt + 1) (rot + 1)
         | .empty => callGeminiLoop env fuel (attempt + 1) rot
         | .fatal => (GemResult.fatalError ("Gemini API error: " ++ e), rot)) := rfl

theorem callGeminiLoop_fst_rot (env : Nat → ServiceResp) :
    ∀ fuel attempt rot rot',
      (callGeminiLoop env fuel attempt rot).1 = (callGeminiLoop env fuel attempt rot').1 := by
  intro fuel
  induction fuel with
  | zero => intro attempt rot rot'; rfl
  | succ n ih =>
    intro attempt rot rot'
    rw [callGeminiLoop_succ, callGeminiLoop_succ]
    cases attemptOutcome (env attempt) with
    | ok s => rfl
    | err e => cases hc : classifyErr e <;> simp only [hc] <;> first | rfl | apply ih

theorem callGeminiLoop_err_step (env : Nat → ServiceResp) (fuel attempt rot : Nat)
    (e : String) (he : attemptOutcome (env attempt) = .err e)
    (hf : classifyErr e ≠ .fatal) :
    (callGeminiLoop env (fuel + 1) attempt rot).1 =
      (callGeminiLoop env fuel (attempt + 1) 0).1 := by
  rw [callGeminiLoop_succ]
  cases hc : classifyErr e with
  | quota => simp only [he, hc]; apply callGeminiLoop_fst_rot
  | disabled => simp only [he, hc]; apply callGeminiLoop_fst_rot
  | empty => simp only [he, hc]; apply callGeminiLoop_fst_rot
  | fatal => exact absurd hc hf

theorem callGemini_three_failures (env : Nat → ServiceResp)
    (h : ∀ i, i < 3 → ∃ e, attemptOutcome (env i) = .err e ∧ classifyErr e ≠ .fatal) :
    callGemini env = .allRetriesFailed := by
  obtain ⟨e0, he0, hf0⟩ := h 0 (by omega)
  obtain ⟨e1, he1, hf1⟩ := h 1 (by omega)
  obtain ⟨e2, he2, hf2⟩ := h 2 (by omega)
  have s0 : (callGeminiLoop env 3 0 0).1 = (callGeminiLoop env 2 1 0).1 :=
    callGeminiLoop_err_step env 2 0 0 e0 he0 hf0
  have s1 : (callGeminiLoop env 2 1 0).1 = (callGeminiLoop env 1 2 0).1 :=
    callGeminiLoop_err_step env 1 1 0 e1 he1 hf1
  have s2 : (callGeminiLoop env 1 2 0).1 = (callGeminiLoop env 0 3 0).1 :=
    callGeminiLoop_err_step env 0 2 0 e2 he2 hf2
  show (callGeminiLoop env 3 0 0).1 = .allRetriesFailed
  rw [s0, s1, s2]
  rfl

/-- Claim C9: with the fixed retry budget `retries=3`, three consecutive
retry-eligible failures (quota, permission/service-disabled, or
empty-response) make `call_gemini` raise the "All retries failed" error;
the outcome is already determined by the first three service responses, so
no attempt beyond the bound is ever made. -/
theorem c9_retries_exhausted (env : Nat → ServiceResp)
    (h : ∀ i, i < 3 → ∃ e, attemptOutcome (env i) = .err e ∧ classifyErr e ≠ .fatal) :
    callGemini env = .allRetriesFailed ∧
    ∀ env' : Nat → ServiceResp, (∀ i, i < 3 → env' i = env i) →
      callGemini env' = .allRetriesFailed := by
  refine ⟨callGemini_three_failures env h, ?_⟩
  intro env' hag
  apply callGemini_three_failures env'
  intro i hi
  obtain ⟨e, he, hf⟩ := h i hi
  exact ⟨e, by rw [hag i hi]; exact he, hf⟩

theorem c9_witness :
    callGemini (fun _ => ServiceResp.raise "429") = .allRetriesFailed :=
  (c9_retries_exhausted (fun _ => ServiceResp.raise "429")
    (fun i _ => ⟨"429", rfl, by decide⟩)).1

/-- Claim C5 counterexample: the response text `"quota limit reached"` is
non-empty and contains no brace-delimited JSON object, yet the resulting
failure is retried rather than escalated as fatal — the error message embeds
the response text, the substring `"quota"` makes `classifyErr` treat it as a
quota failure, and the next attempt's well-formed response is returned. -/
theorem c5_counterexample :
    pyStrip "quota limit reached" ≠ "" ∧
    extractJson (stripFences (pyStrip "quota limit reached")) = none ∧
    callGemini (fun i => if i = 0 then ServiceResp.text "quota limit reached"
                         else ServiceResp.text "\x7b\"x\":1\x7d") =
      .ok "\x7b\"x\":1\x7d" :=
  ⟨by decide, by decide, by decide⟩

/-- Claim C5 (amended): a non-empty service response containing no
brace-delimited JSON object escalates immediately as a fatal error —
regardless of remaining retry budget — provided the resulting error message
(which embeds the response text) matches none of the retry markers
("429", "quota" case-insensitively, "403", "SERVICE_DISABLED",
"Empty response"); when the response text does contain such a marker, the
failure is classified as the corresponding retryable class instead and is
retried. -/
theorem c5_malformed_escalates_unless_marker (env : Nat → ServiceResp) (t : String)
    (h0 : env 0 = .text t)
    (hne : pyStrip t ≠ "")
    (hx : extractJson (stripFences (pyStrip t)) = none)
    (hf : classifyErr ("Could not extract JSON from response: " ++ stripFences (pyStrip t)) = .fatal) :
    callGemini env =
      .fatalError ("Gemini API error: " ++
        ("Could not extract JSON from response: " ++ stripFences (pyStrip t))) := by
  have hao : attemptOutcome (env 0) =
      .err ("Could not extract JSON from response: " ++ stripFences (pyStrip t)) := by
    rw [h0]
    simp only [attemptOutcome]
    rw [if_neg hne, hx]
  show (callGeminiLoop env (2 + 1) 0 0).1 = _
  rw [callGeminiLoop_succ]
  simp only [hao, hf]

theorem c5_witness :
    callGemini (fun _ => ServiceResp.text "hello") =
      .fatalError "Gemini API error: Could not extract JSON from response: hello" := by
  have h := c5_malformed_escalates_unless_marker (fun _ => ServiceResp.text "hello")
    "hello" rfl (by decide) (by decide) (by decide)
  rw [h]
  decide

/-- Claim C6: credential rotation is cyclic and deterministic — with a
non-empty pool of size K the active credential after K rotations from the
first credential is the first credential again, rotation always yields a
valid pool element (it never fails or terminates), and during `call_gemini`
each quota failure drives exactly one rotation (three consecutive quota
failures rotate three times). -/
theorem c6_rotation_cyclic (keys : List String) (h : keys ≠ []) :
    keyAt keys keys.length = keyAt keys 0 ∧
    (∀ n : Nat, ∃ i : Nat, i < keys.length ∧ keyAt keys n = keys.getD i "") ∧
    callGeminiRot (fun _ => ServiceResp.raise "429 quota exceeded") = 3 := by
  refine ⟨?_, ?_, by decide⟩
  · simp [keyAt, Nat.mod_self, Nat.zero_mod]
  · intro n
    exact ⟨n % keys.length, Nat.mod_lt _ (List.length_pos.mpr h), rfl⟩

theorem c6_witness :
    keyAt ["k1", "k2", "k3"] 3 = keyAt ["k1", "k2", "k3"] 0 :=
  (c6_rotation_cyclic ["k1", "k2", "k3"] (by decide)).1

/-! ## Theorems: orchestrator -/

theorem runUpTo_length (env : Nat → RowEnv) (df : List Row) :
    ∀ k, (runUpTo env df k).length = df.length := by
  intro k
  induction k with
  | zero => rfl
  | succ n ih =>
    unfold runUpTo
    cases hdf : df[n]? with
    | none => exact ih
    | some r => simp [List.length_set, ih]

theorem runUpTo_getElem? (env : Nat → RowEnv) (df : List Row) :
    ∀ k i, (runUpTo env df k)[i]? =
      if i < k then df[i]?.map (stepRow (env i)) else df[i]? := by
  intro k
  induction k with
  | zero => intro i; simp [runUpTo]
  | succ n ih =>
    intro i
    unfold runUpTo
    cases hdf : df[n]? with
    | none =>
      rw [ih i]
      by_cases hin : i < n
      · rw [if_pos hin, if_pos (by omega)]
      · by_cases hin2 : i < n + 1
        · have hieq : i = n := by omega
          subst hieq
          rw [if_neg hin, if_pos hin2, hdf]
          rfl
        · rw [if_neg hin, if_neg hin2]
    | some r =>
      have hlt : n < df.length := by
        by_contra hge
        rw [List.getElem?_eq_none (by omega)] at hdf
        exact Option.noConfusion hdf
      by_cases hin : i = n
      · subst hin
        rw [List.getElem?_set_self (by rw [runUpTo_length]; exact hlt)]
        rw [if_pos (by omega), hdf]
        rfl
      · rw [List.getElem?_set_ne (fun hh => hin hh.symm)]
        rw [ih i]
        by_cases hin2 : i < n
        · rw [if_pos hin2, if_pos (by omega)]
        · rw [if_neg hin2, if_neg (by omega)]

/-- Claim C2: the dataset is rewritten to the output path after every
processed row, before the next row begins — `runUpTo env df k` is exactly
the file contents at the checkpoint after the loop has visited its first
`k` rows.  Interrupting there yields a file in which each selected row
among the first `k` is enriched by its own row environment, while every
unvisited or unselected row still holds its original (normalized) value. -/
theorem c2_checkpoint_after_each_row (env : Nat → RowEnv) (df : List Row)
    (k i : Nat) (r : Row) (hr : df[i]? = some r) :
    (i < k → rowSelected r = true →
      (runUpTo env df k)[i]? = some (enrichRow (env i) r)) ∧
    (k ≤ i → (runUpTo env df k)[i]? = some r) ∧
    (rowSelected r = false → (runUpTo env df k)[i]? = some r) := by
  have hg := runUpTo_getElem? env df k i
  refine ⟨?_, ?_, ?_⟩
  · intro hik hsel
    rw [hg, if_pos hik, hr]
    simp [stepRow, hsel]
  · intro hik
    rw [hg, if_neg (by omega), hr]
  · intro hsel
    rw [hg]
    by_cases hik : i < k
    · rw [if_pos hik, hr]
      simp [stepRow, hsel]
    · rw [if_neg hik, hr]

theorem c2_witness :
    (runUpTo (fun _ => envGemErr) [rowBlank, rowDone] 1)[0]? =
      some (enrichRow envGemErr rowBlank) ∧
    (runUpTo (fun _ => envGemErr) [rowBlank, rowDone] 1)[1]? = some rowDone :=
  ⟨(c2_checkpoint_after_each_row (fun _ => envGemErr) [rowBlank, rowDone]
      1 0 rowBlank rfl).1 (by omega) (by decide),
   (c2_checkpoint_after_each_row (fun _ => envGemErr) [rowBlank, rowDone]
      1 1 rowDone rfl).2.1 (by omega)⟩

theorem rowSelected_iff (r : Row) :
    rowSelected r = true ↔
      ((pyStrip r.category = "" ∨ pyStrip r.category = "Unknown" ∨
        pyStrip r.category = "nan" ∨ pyStrip r.category = "NaN") ∧
       ∃ d, r.domain = some d ∧ d ≠ "") := by
  unfold rowSelected categoryNeedsProcessing domainOk
  cases hd : r.domain with
  | none => simp
  | some s =>
    simp [Bool.and_eq_true, Bool.or_eq_true]
    tauto

/-- Claim C1 counterexample, in two parts.  First, a skipped row is not in
general byte-for-byte equal to its input form in the output dataset: the
raw row `rawRowA` has category `"Tech"` (so it is skipped) and raw
confidence cell `"abc"`, yet the output file renders its confidence as
`"0"` because the upfront dtype normalization coerces non-numeric
confidence values to 0.  Second, the processed-iff condition as stated is
wrong about the domain guard: `rawRowB` has category `""` and a present,
non-missing domain cell `""`, so the claim's predicate selects it, but the
code skips it (`not domain` is true for the empty string). -/
theorem c1_counterexample :
    rowSelected (normalizeRow rawRowA) = false ∧
    runUpTo (fun _ => envGemErr) [normalizeRow rawRowA] 1 = [normalizeRow rawRowA] ∧
    rawRowA.confidence = some "abc" ∧
    toString (normalizeRow rawRowA).confidence = "0" ∧
    specSelected (normalizeRow rawRowB) = true ∧
    rowSelected (normalizeRow rawRowB) = false :=
  ⟨by decide, by decide, rfl, by decide, by decide, by decide⟩

/-- Claim C1 (amended): a row is processed exactly when its stripped
category value is empty or one of "Unknown"/"nan"/"NaN" AND its domain
cell is present, non-missing and non-empty; every other row is left
unchanged by the processing loop (so it keeps its post-normalization value
in the output dataset, though not necessarily the raw input bytes). -/
theorem c1_selection_and_untouched (env : Nat → RowEnv) (df : List Row)
    (k i : Nat) (r : Row) (hr : df[i]? = some r) :
    (¬ ((pyStrip r.category = "" ∨ pyStrip r.category = "Unknown" ∨
         pyStrip r.category = "nan" ∨ pyStrip r.category = "NaN") ∧
        ∃ d, r.domain = some d ∧ d ≠ "") →
      (runUpTo env df k)[i]? = some r) ∧
    (((pyStrip r.category = "" ∨ pyStrip r.category = "Unknown" ∨
       pyStrip r.category = "nan" ∨ pyStrip r.category = "NaN") ∧
      ∃ d, r.domain = some d ∧ d ≠ "") →
      i < k → (runUpTo env df k)[i]? = some (enrichRow (env i) r)) := by
  have hg := runUpTo_getElem? env df k i
  constructor
  · intro hnsel
    have hsel : rowSelected r = false := by
      rcases hb : rowSelected r with _ | _
      · rfl
      · exact absurd ((rowSelected_iff r).mp hb) hnsel
    rw [hg]
    by_cases hik : i < k
    · rw [if_pos hik, hr]
      simp [stepRow, hsel]
    · rw [if_neg hik, hr]
  · intro hsel hik
    rw [hg, if_pos hik, hr]
    simp [stepRow, (rowSelected_iff r).mpr hsel]

theorem c1_witness :
    (runUpTo (fun _ => envGemErr) [rowBlank, rowDone] 2)[1]? = some rowDone ∧
    (runUpTo (fun _ => envGemErr) [rowBlank, rowDone] 2)[0]? =
      some (enrichRow envGemErr rowBlank) :=
  ⟨(c1_selection_and_untouched (fun _ => envGemErr) [rowBlank, rowDone]
      2 1 rowDone rfl).1 (by decide),
   (c1_selection_and_untouched (fun _ => envGemErr) [rowBlank, rowDone]
      2 0 rowBlank rfl).2 (by decide) (by omega)⟩

/-- Claim C3: for a processed row, `website_status`/`website_reason` from
the probe are recorded no matter how classification turns out, and any
uncaught error around the classifier call or the merge (the classifier
raising, or `int()` raising on the confidence value mid-merge) leaves the
row with all derived fields defaulted to "Unknown"/"N/A"/0 plus the probe
fields; the loop then moves on to the next row (`runUpTo` continues past
every visited row unconditionally). -/
theorem c3_error_defaults (r : Row) (p : ProbeRes) (c : ClassifyOutcome) :
    ((processRowBody r p c).website_status = p.status ∧
     (processRowBody r p c).website_reason = p.reason) ∧
    (c = .geminiError →
      processRowBody r p c =
        { r with category := "Unknown", company_size := "Unknown",
                 email_provider := "Unknown", confidence := 0,
                 other_industry_category := "N/A", website := "Unknown",
                 website_status := p.status, website_reason := p.reason }) ∧
    (∀ js, c = .ok js → pyInt (js.confidence.getD (.jint 0)) = none →
      processRowBody r p c =
        { r with category := "Unknown", company_size := "Unknown",
                 email_provider := "Unknown", confidence := 0,
                 other_industry_category := "N/A", website := "Unknown",
                 website_status := p.status, website_reason := p.reason }) := by
  refine ⟨?_, ?_, ?_⟩
  · cases c with
    | ok js =>
      cases hpi : pyInt (js.confidence.getD (.jint 0)) <;>
        simp [processRowBody, mergeJs, errorMerge, hpi]
    | badJson => simp [processRowBody, mergeJs, emptyJs, errorMerge, pyInt]
    | geminiError => simp [processRowBody, errorMerge]
  · intro hc
    subst hc
    rfl
  · intro js hc hpi
    subst hc
    simp [processRowBody, mergeJs, hpi, errorMerge]

theorem c3_witness :
    processRowBody rowBlank ⟨"unreachable", "Connection Error", ""⟩ .geminiError =
      { rowBlank with category := "Unknown", company_size := "Unknown",
                      email_provider := "Unknown", confidence := 0,
                      other_industry_category := "N/A", website := "Unknown",
                      website_status := "unreachable",
                      website_reason := "Connection Error" } :=
  (c3_error_defaults rowBlank ⟨"unreachable", "Connection Error", ""⟩
    .geminiError).2.1 rfl

/-- Claim C4 counterexample: a selected row whose classifier response
carries `"confidence": -5` ends up with confidence −5 after processing —
the merge stores `int()` of whatever the service returned, with no clamping
to [0, 100]. -/
theorem c4_counterexample :
    rowSelected rowBlank = true ∧
    (stepRow envConfNeg rowBlank).confidence = -5 ∧
    ¬ (0 ≤ (stepRow envConfNeg rowBlank).confidence ∧
       (stepRow envConfNeg rowBlank).confidence ≤ 100) :=
  ⟨by decide, by decide, by decide⟩

/-- Claim C4 (amended): after processing, `confidence` is always an integer
and never an unparsed value — it equals `int()` of the service-provided
value when that conversion succeeds (stored unclamped, so it may lie
outside [0, 100]), and 0 whenever the key is absent, the conversion raises
(error branch), the JSON was undecodable, or the classifier call failed. -/
theorem c4_confidence_value (r : Row) (p : ProbeRes) (js : JsObj) :
    (∀ n : Int, pyInt (js.confidence.getD (.jint 0)) = some n →
      (processRowBody r p (.ok js)).confidence = n) ∧
    (pyInt (js.confidence.getD (.jint 0)) = none →
      (processRowBody r p (.ok js)).confidence = 0) ∧
    (processRowBody r p .badJson).confidence = 0 ∧
    (processRowBody r p .geminiError).confidence = 0 := by
  refine ⟨?_, ?_, ?_, ?_⟩
  · intro n hpi
    simp [processRowBody, mergeJs, hpi]
  · intro hpi
    simp [processRowBody, mergeJs, hpi, errorMerge]
  · simp [processRowBody, mergeJs, emptyJs, errorMerge, pyInt]
  · simp [processRowBody, errorMerge]

theorem c4_witness :
    (processRowBody rowBlank ⟨"unreachable", "Connection Error", ""⟩
      (.ok ⟨none, none, none, some (.jint (-5)), none, none⟩)).confidence = -5 :=
  (c4_confidence_value rowBlank ⟨"unreachable", "Connection Error", ""⟩
    ⟨none, none, none, some (.jint (-5)), none, none⟩).1 (-5) rfl

end DomainChecker
